import Mathlib

/-!
Verification development for `parambuster.py`, a single-file web parameter
reconnaissance script.  The script fetches one page and runs six independent
extraction passes over the fetched HTML (query string, path/route guessing,
form fields, script text, HTML comments) before printing a report.

The definitions below are a shallow embedding of the script.  Pure Python
string and regex manipulation is translated to Lean functions over
`String`/`List Char`; Python `set` objects become `Finset String`; the
BeautifulSoup document object (an external library the script queries for
tags, attributes and comment nodes) is modelled as a pre-parsed `Document`
structure.  Standard-library helpers the script calls (`urllib.parse`
functions) are modelled from their documented behaviour where noted.
-/

namespace Parambuster

/-! ### Character classes used by the script's regular expressions -/

/-- Character class `[a-zA-Z_$]`: the first character of a JavaScript-style
identifier, as used in the placeholder and script regexes. -/
def isIdentStartChar (c : Char) : Bool :=
  c.isAlpha || c = '_' || c = '$'

/-- Character class `[a-zA-Z0-9_$]`: a continuation character of a
JavaScript-style identifier. -/
def isIdentChar (c : Char) : Bool :=
  c.isAlphanum || c = '_' || c = '$'

/-- Regex word character `[a-zA-Z0-9_]` (the `\w` class, ASCII). -/
def isWordChar (c : Char) : Bool :=
  c.isAlphanum || c = '_'

/-- Character class `[a-zA-Z0-9_-]` of the slug heuristic's regex. -/
def isSlugChar (c : Char) : Bool :=
  c.isAlphanum || c = '_' || c = '-'

/-- Whitespace characters matched by `\s` in the script's regexes (ASCII). -/
def isPySpace (c : Char) : Bool :=
  c = ' ' || c = '\t' || c = '\n' || c = '\r' || c = Char.ofNat 11 || c = Char.ofNat 12

/-- Quote characters matched by the `["..."]` classes: double or single quote. -/
def isQuote (c : Char) : Bool :=
  c = '"' || c = Char.ofNat 39

/-- Model of Python `str.isdigit` restricted to ASCII input: true iff the
string is nonempty and every character is a digit. -/
def pyIsDigit (s : String) : Bool :=
  !s.data.isEmpty && s.data.all Char.isDigit

/-! ### Structural string helpers

The embedding manipulates strings through their character lists with
structurally recursive helpers, so that every definition evaluates inside the
kernel.  Each helper states which Python string operation it models. -/

/-- Model of Python `str.lower` (ASCII). -/
def pyLower (s : String) : String :=
  String.mk (s.data.map Char.toLower)

/-- Model of Python `str.endswith` with a one-character suffix. -/
def endsWithChar (c : Char) (s : String) : Bool :=
  s.data.getLast? = some c

/-- Model of Python `s[:-1]`: the string without its last character. -/
def dropLastChar (s : String) : String :=
  String.mk s.data.dropLast

/-- Model of Python `str.split` with a one-character separator: splitting
`""` gives `[""]`, and consecutive separators give empty pieces. -/
def splitChar (sep : Char) : List Char → List (List Char)
  | [] => [[]]
  | c :: cs =>
    let r := splitChar sep cs
    if c = sep then [] :: r
    else
      match r with
      | h :: t => (c :: h) :: t
      | [] => [[c]]

/-- Characters strictly before the first occurrence of `sep`, or the whole
list when `sep` does not occur: Python `s.split(sep, 1)[0]`. -/
def beforeFirst (sep : Char) (l : List Char) : List Char :=
  l.takeWhile (fun c => c ≠ sep)

/-- Characters after the first occurrence of `sep`, when it occurs:
Python `s.split(sep, 1)[1]` guarded by `sep in s`. -/
def afterFirst (sep : Char) : List Char → Option (List Char)
  | [] => none
  | c :: cs => if c = sep then some cs else afterFirst sep cs

/-- Match a literal character sequence at the front of a list, returning the
remainder on success. -/
def dropLit : List Char → List Char → Option (List Char)
  | [], l => some l
  | _ :: _, [] => none
  | k :: ks, c :: cs => if c = k then dropLit ks cs else none

/-! ### URL query extraction (`extract_url_query_parameters`)

The script calls `urlparse` and `parse_qs` from `urllib.parse`.  Both are
standard-library collaborators; they are modelled here from their documented
behaviour: the query component is everything after the first `?` of the
pre-fragment part of the URL, and `parse_qs` (with its default
`keep_blank_values=False`) splits the query on `&`, splits each field at its
first `=`, drops fields with no `=` and fields whose raw value is empty, and
surfaces the remaining keys.  Percent-decoding of keys is elided (identity on
the plain keys considered here). -/

/-- Query component of a URL: the part after the first `?`, with any fragment
(part after the first `#`) removed first, as `urlsplit` does. -/
def urlQuery (url : String) : String :=
  match afterFirst '?' (beforeFirst '#' url.data) with
  | some q => String.mk q
  | none => ""

/-- Split a field at its first `=`: `some (key, value)` when an `=` occurs. -/
def breakAtEq : List Char → Option (List Char × List Char)
  | [] => none
  | c :: cs =>
    if c = '=' then some ([], cs)
    else
      match breakAtEq cs with
      | some (a, b) => some (c :: a, b)
      | none => none

/-- Model of the key set of `parse_qs qs` with default options: fields with no
`=` or with an empty raw value are dropped; duplicate keys collapse into the
set. -/
def parse_qs_keys (qs : String) : Finset String :=
  ((splitChar '&' qs.data).filterMap (fun field =>
    match breakAtEq field with
    | some (k, v) => if v ≠ [] then some (String.mk k) else none
    | none => none)).toFinset

/-- The script's query pass: the key set of the target URL's query string. -/
def extract_url_query_parameters (url : String) : Finset String :=
  parse_qs_keys (urlQuery url)

/-! ### Path segmentation and the three per-segment heuristics
(`extract_potential_path_parameters`) -/

/-- Split a URL path on `/` and drop empty segments, as in
`[s for s in parsed_url.path.split('/') if s]`. -/
def pathSegments (path : String) : List String :=
  ((splitChar '/' path.data).map String.mk).filter (fun s => s ≠ "")

/-- Leading identifier of a character list: `[a-zA-Z_$][a-zA-Z0-9_$]*`,
matched greedily from the front. -/
def leadingIdent (l : List Char) : Option (List Char) :=
  match l with
  | [] => none
  | c :: cs => if isIdentStartChar c then some (c :: cs.takeWhile isIdentChar) else none

/-- Group 1 of `re.match` with pattern `[{:]?([a-zA-Z_$][a-zA-Z0-9_$]*)[}]?`
on a segment.  The optional leading delimiter is consumed greedily; since `{`
and `:` are not identifier characters, backtracking into an empty delimiter
can never produce a match the greedy attempt missed, and the trailing
optional `}` does not affect the captured group. -/
def placeholderGroup : List Char → Option (List Char)
  | [] => none
  | c :: cs =>
    if c = '{' || c = ':' then leadingIdent cs else leadingIdent (c :: cs)

/-- Heuristic 1 (explicit placeholder): emit the captured identifier when the
pattern matches and the capture differs from the whole raw segment. -/
def explicitPlaceholderHint (seg : String) : Option String :=
  match placeholderGroup seg.data with
  | none => none
  | some g => if String.mk g = seg then none else some (String.mk g)

/-- The fixed known-plural set of the numeric-segment heuristic. -/
def knownPluralSegments : List String :=
  ["users", "products", "items", "posts", "orders"]

/-- Name hint chosen by the numeric-segment heuristic from the (optional)
previous path segment. -/
def numericHintName : Option String → String
  | none => "id"
  | some p =>
    let pl := pyLower p
    if knownPluralSegments.contains pl then pl ++ "_id"
    else if endsWithChar 's' pl then dropLastChar pl ++ "_id"
    else "id"

/-- Heuristic 2 (numeric segment): fires when the segment is all digits and
longer than one character. -/
def numericSegmentHint (prev : Option String) (seg : String) : Option String :=
  if pyIsDigit seg ∧ seg.length > 1 then some (numericHintName prev) else none

/-- The fixed stop-set of common static path words of the slug heuristic. -/
def commonStaticSegments : List String :=
  ["api", "v1", "v2", "css", "js", "img", "images", "static", "assets",
   "admin", "dashboard", "new", "edit", "delete", "view", "index", "home"]

/-- Guard of heuristic 3: segment matches `^[a-zA-Z0-9_-]+$`, is not purely
numeric, has length greater than 2, and its lower-casing is not in the
static stop-set. -/
def isSlugSegment (seg : String) : Bool :=
  !seg.data.isEmpty && seg.data.all isSlugChar && !pyIsDigit seg &&
    seg.length > 2 && !commonStaticSegments.contains (pyLower seg)

/-- The fixed previous-segment set of the slug heuristic. -/
def slugPrevSegments : List String :=
  ["products", "articles", "posts", "categories", "users"]

/-- Name hint chosen by the slug heuristic from the (optional) previous path
segment. -/
def slugHintName : Option String → String
  | none => "slug"
  | some p =>
    let pl := pyLower p
    if slugPrevSegments.contains pl then
      if endsWithChar 's' pl then dropLastChar pl ++ "_slug" else pl ++ "_name"
    else "slug"

/-- Heuristic 3 (slug-like segment). -/
def slugSegmentHint (prev : Option String) (seg : String) : Option String :=
  if isSlugSegment seg then some (slugHintName prev) else none

/-- Previous segment seen by a heuristic at index `i`: the script only
consults `path_segments[i-1]` when `i > 0`. -/
def prevSegment (segs : List String) (i : Nat) : Option String :=
  if i = 0 then none else segs.get? (i - 1)

/-- All emissions of heuristic 1 over a segment list. -/
def explicitHints (segs : List String) : Finset String :=
  (segs.enum.filterMap (fun p => explicitPlaceholderHint p.2)).toFinset

/-- All emissions of heuristic 2 over a segment list. -/
def numericHints (segs : List String) : Finset String :=
  (segs.enum.filterMap (fun p => numericSegmentHint (prevSegment segs p.1) p.2)).toFinset

/-- All emissions of heuristic 3 over a segment list. -/
def slugHints (segs : List String) : Finset String :=
  (segs.enum.filterMap (fun p => slugSegmentHint (prevSegment segs p.1) p.2)).toFinset

/-- All path-parameter hints a single URL's segments contribute. -/
def pathParamHints (segs : List String) : Finset String :=
  explicitHints segs ∪ numericHints segs ∪ slugHints segs

/-! ### Form field collection (`extract_form_parameters`)

BeautifulSoup is an external collaborator; a field element found inside a
form is modelled by its tag name (`element.name`), its `name` attribute and
its `type` attribute. -/

/-- One `input`/`select`/`textarea` element found inside a form.  `tag` is
the element kind (BeautifulSoup's `element.name`), `nameAttr` and `typeAttr`
are the `name` and `type` attributes (`element.get`), absent when the
attribute is missing. -/
structure FormField where
  tag : String
  nameAttr : Option String
  typeAttr : Option String
deriving DecidableEq

/-- Condition of the hidden branch:
`element.name == 'input' and element.get('type') == 'hidden'`. -/
def isHiddenField (f : FormField) : Bool :=
  f.tag == "input" && f.typeAttr == some "hidden"

/-- Name contributed by a field to the hidden bucket, if any.  The guard
`if name:` is Python truthiness: a field whose `name` attribute is missing
or is the empty string is skipped. -/
def hiddenNameOf (f : FormField) : Option String :=
  match f.nameAttr with
  | none => none
  | some n =>
    if n = "" then none
    else if isHiddenField f then some n else none

/-- Name contributed by a field to the visible bucket, if any, under the
same `if name:` truthiness guard. -/
def visibleNameOf (f : FormField) : Option String :=
  match f.nameAttr with
  | none => none
  | some n =>
    if n = "" then none
    else if isHiddenField f then none else some n

/-- The form pass over the listed fields of every form, in document order:
the visible bucket and the hidden bucket.  The loop that inserts each named
field into one of the two sets is modelled as a filter of the field list. -/
def extract_form_parameters (fields : List FormField) : Finset String × Finset String :=
  ((fields.filterMap visibleNameOf).toFinset, (fields.filterMap hiddenNameOf).toFinset)

/-! ### Regex sweeps over script text and comment text

Python's `re.findall`/`finditer` scan left to right, try the pattern at each
position, and continue after the end of each match.  `scanMatches` models
this scan; each `step` function models one pattern, returning the captured
token and the index of the last consumed character (so `k + 1` characters
were consumed) when the pattern matches at the current position.  The
previous character is tracked for `\b` word boundaries. -/

/-- Word-boundary test used before a pattern that starts with a word
character: true at the start of the input or after a non-word character. -/
def noWordBefore : Option Char → Bool
  | none => true
  | some c => !isWordChar c

/-- Generic non-overlapping left-to-right scan.  On a match `(tok, k)` the
scan resumes after the `k + 1` consumed characters, remembering the last
consumed character; otherwise it advances one character. -/
def scanMatches (step : Option Char → List Char → Option (String × Nat)) :
    Option Char → List Char → List String
  | _, [] => []
  | prev, c :: rest =>
    match step prev (c :: rest) with
    | some (tok, k) => tok :: scanMatches step ((c :: rest).get? k) (rest.drop k)
    | none => scanMatches step (some c) rest
termination_by _ l => l.length
decreasing_by
  all_goals simp only [List.length_drop, List.length_cons]
  all_goals omega

/-- Character class `[a-zA-Z0-9_\-./]` of the script URL-literal pattern. -/
def isJsUrlChar (c : Char) : Bool :=
  c.isAlphanum || c = '_' || c = '-' || c = '.' || c = '/'

/-- One attempt of `(?:["\'])(/?[a-zA-Z0-9_\-./]+)(?:["\'])`: an opening
quote, a maximal nonempty run of URL characters (the optional leading `/` is
already in the class), then a closing quote.  Greedy matching makes the
captured group exactly the maximal run. -/
def jsUrlStep (_ : Option Char) (l : List Char) : Option (String × Nat) :=
  match l with
  | [] => none
  | c :: rest =>
    if isQuote c then
      let run := rest.takeWhile isJsUrlChar
      match rest.drop run.length with
      | q :: _ => if !run.isEmpty && isQuote q then some (String.mk run, run.length + 1) else none
      | [] => none
    else none

/-- All quoted URL-like literals of a script text. -/
def jsUrlStrings (s : String) : List String :=
  scanMatches jsUrlStep none s.data

/-- Keyword alternation `var|let|const|\bthis\.` at the front of the input:
only `this.` demands a word boundary before it. -/
def matchJsKeyword (p : Option Char) (l : List Char) : Option (List Char) :=
  match dropLit "var".data l with
  | some r => some r
  | none =>
    match dropLit "let".data l with
    | some r => some r
    | none =>
      match dropLit "const".data l with
      | some r => some r
      | none => if noWordBefore p then dropLit "this.".data l else none

/-- Assignment branch `(?:var|let|const|\bthis\.)\s*([a-zA-Z_$][a-zA-Z0-9_$]*)\s*=`
of the script parameter pattern.  The identifier is matched greedily; a
shorter identifier can never be followed by whitespace or `=`, so greedy
matching is exact. -/
def jsAssignAlt1 (p : Option Char) (l : List Char) : Option (String × Nat) :=
  match matchJsKeyword p l with
  | none => none
  | some r1 =>
    let r2 := r1.dropWhile isPySpace
    match leadingIdent r2 with
    | none => none
    | some id =>
      let r3 := (r2.drop id.length).dropWhile isPySpace
      match r3 with
      | c :: _ => if c = '=' then some (String.mk id, l.length - r3.length) else none
      | [] => none

/-- Object-key branch `([a-zA-Z_$][a-zA-Z0-9_$]*)\s*:\s*(?:["\']|\d)` of the
script parameter pattern. -/
def jsAssignAlt2 (l : List Char) : Option (String × Nat) :=
  match leadingIdent l with
  | none => none
  | some id =>
    let r2 := (l.drop id.length).dropWhile isPySpace
    match r2 with
    | c :: r3 =>
      if c = ':' then
        let r4 := r3.dropWhile isPySpace
        match r4 with
        | v :: _ => if isQuote v || v.isDigit then some (String.mk id, l.length - r4.length) else none
        | [] => none
      else none
    | [] => none

/-- Whole script parameter pattern: the assignment branch is preferred, then
the object-key branch.  Either branch contributes its captured identifier. -/
def jsAssignStep (p : Option Char) (l : List Char) : Option (String × Nat) :=
  match jsAssignAlt1 p l with
  | some r => some r
  | none => jsAssignAlt2 l

/-- Attribute pattern `name=["\']([a-zA-Z_$][a-zA-Z0-9_$]*)["\']` inside
script text. -/
def nameAttrStep (_ : Option Char) (l : List Char) : Option (String × Nat) :=
  match dropLit "name=".data l with
  | none => none
  | some r1 =>
    match r1 with
    | q1 :: r2 =>
      if isQuote q1 then
        match leadingIdent r2 with
        | some id =>
          match r2.drop id.length with
          | q2 :: _ => if isQuote q2 then some (String.mk id, 6 + id.length) else none
          | [] => none
        | none => none
      else none
    | [] => none

/-- The script pass: both sweeps over the concatenated script text, pooled
into one set. -/
def extract_js_parameters (script : String) : Finset String :=
  (scanMatches jsAssignStep none script.data ++
   scanMatches nameAttrStep none script.data).toFinset

/-- Leading comment-style identifier `[a-zA-Z_][a-zA-Z0-9_]*` (no `$`). -/
def leadingWordIdent (l : List Char) : Option (List Char) :=
  match l with
  | [] => none
  | c :: cs => if c.isAlpha || c = '_' then some (c :: cs.takeWhile isWordChar) else none

/-- Character class `[a-zA-Z0-9_.-]` of the comment value pattern. -/
def isCommentValueChar (c : Char) : Bool :=
  c.isAlphanum || c = '_' || c = '.' || c = '-'

/-- Value alternation `(?:["\']?[a-zA-Z0-9_.-]+["\']?|\d+)` at the front of
the input, returning the remainder after the match.  The `\d+` branch is
subsumed by the first branch (digits are value characters), and both
optional quotes are taken greedily when present. -/
def matchCommentValue (l : List Char) : Option (List Char) :=
  match l with
  | [] => none
  | v :: vs =>
    if isQuote v then
      let run := vs.takeWhile isCommentValueChar
      if run.isEmpty then none
      else
        match vs.drop run.length with
        | q :: r => if isQuote q then some r else some (q :: r)
        | [] => some []
    else
      let run := l.takeWhile isCommentValueChar
      if run.isEmpty then none
      else
        match l.drop run.length with
        | q :: r => if isQuote q then some r else some (q :: r)
        | [] => some []

/-- Key-value pattern
`\b([a-zA-Z_][a-zA-Z0-9_]*)\s*=\s*(?:["\']?[a-zA-Z0-9_.-]+["\']?|\d+)` over
comment text; the key is captured. -/
def commentKeyStep (p : Option Char) (l : List Char) : Option (String × Nat) :=
  if noWordBefore p then
    match leadingWordIdent l with
    | some id =>
      match (l.drop id.length).dropWhile isPySpace with
      | c :: r3 =>
        if c = '=' then
          match matchCommentValue (r3.dropWhile isPySpace) with
          | some rest => some (String.mk id, l.length - rest.length - 1)
          | none => none
        else none
      | [] => none
    | none => none
  else none

/-- Bare-word pattern `\b([a-zA-Z_][a-zA-Z0-9_]*)\b` over comment text: a
maximal word run that starts with a letter or underscore. -/
def commentWordStep (p : Option Char) (l : List Char) : Option (String × Nat) :=
  if noWordBefore p then
    match leadingWordIdent l with
    | some id => some (String.mk id, id.length - 1)
    | none => none
  else none

/-- The fixed stop-word list of the comment pass. -/
def commonWords : List String :=
  ["this", "that", "the", "and", "or", "not", "for", "in", "with", "is",
   "of", "to", "a", "an", "on", "at", "by", "from", "as", "it", "he", "she",
   "we", "they", "you", "my", "your", "his", "her", "our", "their", "its",
   "up", "down", "left", "right", "true", "false", "null", "undefined"]

/-- Names one comment contributes: key-value keys, plus bare words longer
than two characters whose lower-casing is not a stop word. -/
def commentParams (comment : String) : Finset String :=
  (scanMatches commentKeyStep none comment.data).toFinset ∪
  ((scanMatches commentWordStep none comment.data).filter
     (fun w => w.length > 2 && !commonWords.contains (pyLower w))).toFinset

/-- The comment pass over every HTML comment node. -/
def extract_comment_parameters (comments : List String) : Finset String :=
  comments.foldl (fun acc c => acc ∪ commentParams c) ∅

/-! ### URL resolution and path extraction

The script resolves every harvested reference against the base URL with
`urllib.parse.urljoin` and reads paths with `urlparse(...).path`.  Both are
standard-library collaborators, modelled here from their documented
behaviour: path extraction strips fragment, query, scheme and network
location; resolution is simplified RFC 3986 reference resolution without
dot-segment normalisation (no harvested input in this development contains
dot segments). -/

/-- Remainder after the first occurrence of `://`, when present. -/
def afterSchemeSep : List Char → Option (List Char)
  | [] => none
  | ':' :: '/' :: '/' :: rest => some rest
  | _ :: cs => afterSchemeSep cs

/-- Characters before the first occurrence of `://`, when present. -/
def beforeSchemeSep : List Char → Option (List Char)
  | [] => none
  | ':' :: '/' :: '/' :: _ => some []
  | c :: cs => (beforeSchemeSep cs).map (fun r => c :: r)

/-- Model of `urlparse(url).path`: drop fragment and query, then drop the
scheme and network location when a `://` separator is present. -/
def urlPath (url : String) : String :=
  let s := beforeFirst '?' (beforeFirst '#' url.data)
  match afterSchemeSep s with
  | none => String.mk s
  | some after =>
    match afterFirst '/' after with
    | none => ""
    | some p => String.mk ('/' :: p)

/-- `scheme://netloc` part of an absolute URL, empty when there is none. -/
def schemeNetloc (url : String) : String :=
  match beforeSchemeSep url.data, afterSchemeSep url.data with
  | some sch, some after => String.mk sch ++ "://" ++ String.mk (beforeFirst '/' after)
  | _, _ => ""

/-- Whether `s` starts with the literal `lit`. -/
def startsWithLit (lit : String) (s : String) : Bool :=
  (dropLit lit.data s.data).isSome

/-- Directory part of a path: everything up to and including the last `/`,
or `/` when the path has no `/`. -/
def dirPart (path : String) : String :=
  match splitChar '/' path.data with
  | [] => "/"
  | [_] => "/"
  | parts => String.mk ((parts.dropLast.map (fun p => p ++ ['/'])).flatten)

/-- Model of `urllib.parse.urljoin`: absolute references pass through,
protocol-relative references take the base scheme, root-relative references
take the base authority, and other references are resolved against the
directory of the base path. -/
def urljoinModel (base rel : String) : String :=
  if (afterSchemeSep rel.data).isSome then rel
  else if startsWithLit "//" rel then
    match beforeSchemeSep base.data with
    | some sch => String.mk sch ++ ":" ++ rel
    | none => rel
  else if startsWithLit "/" rel then schemeNetloc base ++ rel
  else if rel = "" then base
  else schemeNetloc base ++ dirPart (urlPath base) ++ rel

/-! ### The document model and the whole pipeline

The HTML tokenizer/DOM builder is an external collaborator; the fetched page
is modelled by the queries the script makes of it. -/

/-- Parsed view of the fetched page: `href` attributes of anchors, `action`
attributes of forms, `script.string` of script elements (absent for script
elements with no inline text), fields of each form in document order, and
comment node texts. -/
structure Document where
  anchorHrefs : List String
  formActions : List String
  scriptStrings : List (Option String)
  forms : List (List FormField)
  comments : List String

/-- Concatenated script text: `"\n".join`, with absent strings contributing
`''`. -/
def scriptText (scripts : List (Option String)) : String :=
  match scripts with
  | [] => ""
  | [s] => s.getD ""
  | s :: rest => s.getD "" ++ "\n" ++ scriptText rest

/-- URL harvesting of the path pass: anchors, form actions, and quoted
URL-like script literals longer than two characters that are not
protocol-relative, each resolved against the base URL.  The
`urls_to_analyze` set together with the initially-empty `processed_urls` set
dedups the harvested URLs within the run. -/
def harvestedUrls (url : String) (doc : Document) : Finset String :=
  (doc.anchorHrefs.map (urljoinModel url)).toFinset ∪
  (doc.formActions.map (urljoinModel url)).toFinset ∪
  (((jsUrlStrings (scriptText doc.scriptStrings)).filter
      (fun s => s.length > 2 && !startsWithLit "//" s)).map (urljoinModel url)).toFinset

/-- The path pass: every harvested URL's path segments run through the three
per-segment heuristics, pooled into one set. -/
def extract_potential_path_parameters (url : String) (doc : Document) : Finset String :=
  (harvestedUrls url doc).biUnion (fun u => pathParamHints (pathSegments (urlPath u)))

/-- The six buckets of `found_parameters`, in the dictionary's insertion
order. -/
structure Buckets where
  query : Finset String
  path : Finset String
  formVisible : Finset String
  formHidden : Finset String
  js : Finset String
  comments : Finset String

/-- All buckets start empty in `__init__`. -/
def emptyBuckets : Buckets :=
  ⟨∅, ∅, ∅, ∅, ∅, ∅⟩

/-- The five extraction passes on a successfully fetched page, each adding
to its own bucket of the current state. -/
def runPasses (url : String) (doc : Document) (b : Buckets) : Buckets :=
  let fp := extract_form_parameters doc.forms.flatten
  { query := b.query ∪ extract_url_query_parameters url
    path := b.path ∪ extract_potential_path_parameters url doc
    formVisible := b.formVisible ∪ fp.1
    formHidden := b.formHidden ∪ fp.2
    js := b.js ∪ extract_js_parameters (scriptText doc.scriptStrings)
    comments := b.comments ∪ extract_comment_parameters doc.comments }

/-- Result of `fetch_page`: either a parsed document or a request error
(network failure, timeout, or a non-success HTTP status raised by
`raise_for_status`). -/
inductive FetchOutcome where
  | success (doc : Document)
  | failure (err : String)

/-- Control flow of `find_all_parameters`: a fetch failure calls
`sys.exit(1)` before any extraction pass, leaving the buckets untouched; a
success runs every pass and the script later exits normally with code 0.
The returned pair is the process exit code and the final bucket state. -/
def find_all_parameters (url : String) (outcome : FetchOutcome) (b : Buckets) : Nat × Buckets :=
  match outcome with
  | .failure _ => (1, b)
  | .success doc => (0, runPasses url doc b)

/-! ### The reporter (`display_results`) -/

/-- Sorted name list of one bucket: `sorted(list(params_set))`. -/
def sortedParams (s : Finset String) : List String :=
  s.sort (· ≤ ·)

/-- The six buckets in display order. -/
def bucketList (b : Buckets) : List (Finset String) :=
  [b.query, b.path, b.formVisible, b.formHidden, b.js, b.comments]

/-- The "Total Unique Parameters Discovered" number: the loop adds the
length of each nonempty bucket's sorted list to a running total. -/
def total_found (b : Buckets) : Nat :=
  (bucketList b).foldl
    (fun acc s => if (sortedParams s).isEmpty then acc else acc + (sortedParams s).length) 0

/-- The printed report, reduced to its data: the sorted name list of every
bucket in display order, and the printed total. -/
def display_results (b : Buckets) : List (List String) × Nat :=
  ((bucketList b).map sortedParams, total_found b)

/-- Union of the six buckets.  The script never computes this; it is defined
here only to compare the printed total against the deduplicated count. -/
def allBucketUnion (b : Buckets) : Finset String :=
  b.query ∪ b.path ∪ b.formVisible ∪ b.formHidden ∪ b.js ∪ b.comments

/-! ### Helper lemmas -/

/-- Taking while a predicate holds passes over a block that satisfies it. -/
theorem takeWhile_append_all {p : Char → Bool} {l₁ : List Char} (l₂ : List Char)
    (h : l₁.all p = true) : (l₁ ++ l₂).takeWhile p = l₁ ++ l₂.takeWhile p := by
  induction l₁ with
  | nil => simp
  | cons a t ih =>
    simp only [List.all_cons, Bool.and_eq_true] at h
    simp [List.takeWhile_cons, h.1, ih h.2]

/-- An identifier-start character is neither `{` nor `:`. -/
theorem identStartChar_not_delim {d : Char} (h : isIdentStartChar d = true) :
    ¬(d = '{' ∨ d = ':') := by
  rintro (rfl | rfl) <;> exact absurd h (by decide)

/-- Characterisation of a field's contribution to the hidden bucket: the
name must be present and nonempty (the `if name:` truthiness guard), on an
`input` element of type exactly `hidden`. -/
theorem hiddenNameOf_eq_some {f : FormField} {n : String} :
    hiddenNameOf f = some n ↔
      f.nameAttr = some n ∧ n ≠ "" ∧ f.tag = "input" ∧ f.typeAttr = some "hidden" := by
  rcases f with ⟨tag, na, ta⟩
  cases na with
  | none => simp [hiddenNameOf]
  | some m =>
    simp only [hiddenNameOf, isHiddenField]
    by_cases h0 : m = ""
    · subst h0
      simp
      rintro rfl
      simp
    · by_cases h1 : tag = "input"
      · by_cases h2 : ta = some "hidden"
        · subst h1; subst h2
          simp [h0]
          rintro rfl
          exact h0
        · simp [h0, h1, h2]
      · simp [h0, h1]

/-- Characterisation of a field's contribution to the visible bucket: the
name must be present and nonempty, on a field that fails the hidden
condition. -/
theorem visibleNameOf_eq_some {f : FormField} {n : String} :
    visibleNameOf f = some n ↔
      f.nameAttr = some n ∧ n ≠ "" ∧ ¬(f.tag = "input" ∧ f.typeAttr = some "hidden") := by
  rcases f with ⟨tag, na, ta⟩
  cases na with
  | none => simp [visibleNameOf]
  | some m =>
    simp only [visibleNameOf, isHiddenField]
    by_cases h0 : m = ""
    · subst h0
      simp
      rintro rfl
      simp
    · by_cases h1 : tag = "input"
      · by_cases h2 : ta = some "hidden"
        · subst h1; subst h2; simp [h0]
        · simp [h0, h1, h2]
          rintro rfl
          exact h0
      · simp [h0, h1]
        rintro rfl
        exact h0

/-- One reporter step adds exactly the bucket's cardinality. -/
theorem display_step (acc : Nat) (s : Finset String) :
    (if (sortedParams s).isEmpty then acc else acc + (sortedParams s).length) =
      acc + s.card := by
  have hlen : (sortedParams s).length = s.card := Finset.length_sort _
  rcases hl : sortedParams s with _ | ⟨a, t⟩
  · rw [hl] at hlen
    simp only [List.isEmpty_nil, if_true]
    simp at hlen
    omega
  · rw [hl] at hlen
    rw [if_neg (by simp)]
    omega

/-- The printed total is the sum of the six per-bucket set sizes. -/
theorem total_found_eq_sum (b : Buckets) :
    total_found b = b.query.card + b.path.card + b.formVisible.card +
      b.formHidden.card + b.js.card + b.comments.card := by
  simp only [total_found, bucketList, List.foldl, display_step]
  omega

/-! ### Claim theorems -/

/-- Claim C2 (confirmed): for the path segment consisting of `id` inside
braces, the explicit-placeholder heuristic emits the identifier `id`; for
the bare segment `id` the captured identifier equals the whole raw segment,
so nothing is emitted. -/
theorem explicit_placeholder_id_braces :
    explicitPlaceholderHint "\x7bid\x7d" = some "id" ∧
      explicitPlaceholderHint "id" = none := by
  decide

/-- Claim C1, counterexample: the claim says the slug heuristic emits no
hint for the path `/css/style`, but the segment `style` (length 5, not in
the static stop-set) does emit the hint `slug`. -/
theorem slug_hint_css_style_counterexample :
    slugHints (pathSegments "/css/style") ≠ ∅ ∧
      "slug" ∈ slugHints (pathSegments "/css/style") := by
  decide

/-- Claim C1 (corrected): for `/api/v1` the slug heuristic emits no hint
(both segments are excluded: `api` is in the stop-set, `v1` is in the
stop-set and has length 2); for `/css/style` the segment `css` is in the
stop-set but `style` is not and is longer than two characters, so the
heuristic emits the generic hint `slug`. -/
theorem slug_hints_api_v1_css_style :
    slugHints (pathSegments "/api/v1") = ∅ ∧
      slugHints (pathSegments "/css/style") = {"slug"} := by
  decide

/-- Claim C3 (confirmed): for an all-digit segment longer than one
character, the numeric-segment heuristic emits `<prev>_id` when the
lower-cased previous segment is in the known-plural set (so `/users/42`
emits `users_id`), emits the previous segment with its trailing `s`
stripped plus `_id` when it merely ends in `s` (so `/widgets/42` emits
`widget_id`), and emits the literal `id` otherwise (including when there is
no previous segment). -/
theorem numeric_segment_hint_rules (prev seg : String)
    (hdig : pyIsDigit seg = true) (hlen : seg.length > 1) :
    (knownPluralSegments.contains (pyLower prev) = true →
      numericSegmentHint (some prev) seg = some (pyLower prev ++ "_id")) ∧
    (knownPluralSegments.contains (pyLower prev) = false →
      endsWithChar 's' (pyLower prev) = true →
      numericSegmentHint (some prev) seg = some (dropLastChar (pyLower prev) ++ "_id")) ∧
    (knownPluralSegments.contains (pyLower prev) = false →
      endsWithChar 's' (pyLower prev) = false →
      numericSegmentHint (some prev) seg = some "id") ∧
    numericSegmentHint none seg = some "id" ∧
    numericHints (pathSegments "/users/42") = {"users_id"} ∧
    numericHints (pathSegments "/widgets/42") = {"widget_id"} := by
  refine ⟨?_, ?_, ?_, ?_, by decide, by decide⟩
  · intro hmem
    simp only [numericSegmentHint, numericHintName]
    rw [if_pos ⟨hdig, hlen⟩, if_pos hmem]
  · intro h1 h2
    simp only [numericSegmentHint, numericHintName]
    rw [if_pos ⟨hdig, hlen⟩, if_neg (by rw [h1]; simp), if_pos h2]
  · intro h1 h2
    simp only [numericSegmentHint, numericHintName]
    rw [if_pos ⟨hdig, hlen⟩, if_neg (by rw [h1]; simp), if_neg (by rw [h2]; simp)]
  · simp only [numericSegmentHint, numericHintName]
    rw [if_pos ⟨hdig, hlen⟩]

/-- Witness for claim C3 at the concrete input `/users/42`. -/
theorem numeric_segment_hint_rules_witness :
    numericSegmentHint (some "users") "42" = some "users_id" := by
  have h := (numeric_segment_hint_rules "users" "42" (by decide) (by decide)).1 (by decide)
  exact h

/-- Claim C9 (confirmed): because the placeholder pattern is matched only at
the start of a segment, a segment that begins with an identifier and
continues with a character outside the identifier class emits its leading
identifier into the path bucket: the captured group is the maximal leading
identifier, which differs from the whole raw segment. -/
theorem leading_ident_emitted (d c : Char) (ds rest : List Char)
    (hd : isIdentStartChar d = true) (hds : ds.all isIdentChar = true)
    (hc : isIdentChar c = false) :
    explicitPlaceholderHint (String.mk (d :: (ds ++ c :: rest))) =
      some (String.mk (d :: ds)) := by
  have hne := identStartChar_not_delim hd
  have hgroup : placeholderGroup (d :: (ds ++ c :: rest)) = some (d :: ds) := by
    simp only [placeholderGroup]
    rw [if_neg (by simpa using hne)]
    simp only [leadingIdent]
    rw [if_pos hd, takeWhile_append_all _ hds, List.takeWhile_cons, if_neg (by simp [hc])]
    simp
  show (match placeholderGroup (d :: (ds ++ c :: rest)) with
    | none => none
    | some g =>
      if String.mk g = String.mk (d :: (ds ++ c :: rest)) then none
      else some (String.mk g)) = some (String.mk (d :: ds))
  rw [hgroup]
  dsimp only
  rw [if_neg]
  intro heq
  have hdata : d :: ds = d :: (ds ++ c :: rest) := congrArg String.data heq
  have := congrArg List.length hdata
  simp at this

/-- Witness for claim C9 at the concrete segments `style.css` and `my-page`. -/
theorem leading_ident_emitted_witness :
    explicitPlaceholderHint "style.css" = some "style" ∧
      explicitPlaceholderHint "my-page" = some "my" := by
  constructor
  · exact leading_ident_emitted 's' '.' ['t', 'y', 'l', 'e'] ['c', 's', 's']
      (by decide) (by decide) (by decide)
  · exact leading_ident_emitted 'm' '-' ['y'] ['p', 'a', 'g', 'e']
      (by decide) (by decide) (by decide)

/-- Claim C5, counterexample: the claim says a named field is in the hidden
bucket iff it is an `input` with `type` equal to `hidden`, but the guard
`if name:` uses Python truthiness, so an `input` with `type="hidden"` whose
`name` attribute is present and empty is a named field that lands in
neither bucket: the claimed equivalence fails at the empty name. -/
theorem form_empty_name_counterexample :
    extract_form_parameters [⟨"input", some "", some "hidden"⟩] = (∅, ∅) ∧
    ¬("" ∈ (extract_form_parameters [⟨"input", some "", some "hidden"⟩]).2 ↔
        ∃ f, f ∈ [(⟨"input", some "", some "hidden"⟩ : FormField)] ∧
          f.nameAttr = some "" ∧ f.tag = "input" ∧ f.typeAttr = some "hidden") := by
  decide

/-- Claim C5 (corrected): a name is in the hidden bucket iff some listed
field carries it as a nonempty `name` attribute on an `input` element whose
`type` attribute is exactly the string `hidden`; a name is in the visible
bucket iff some listed field carries it as a nonempty `name` attribute
while failing that condition; a field whose `name` attribute is missing or
empty contributes to neither bucket.  Concretely, a hidden `csrf_token`
input lands only in the hidden bucket, and the comparison is
case-sensitive: `type="Hidden"` lands in the visible bucket. -/
theorem form_field_classification (fields : List FormField) (n : String) :
    (n ∈ (extract_form_parameters fields).2 ↔
      ∃ f, f ∈ fields ∧ f.nameAttr = some n ∧ n ≠ "" ∧ f.tag = "input" ∧
        f.typeAttr = some "hidden") ∧
    (n ∈ (extract_form_parameters fields).1 ↔
      ∃ f, f ∈ fields ∧ f.nameAttr = some n ∧ n ≠ "" ∧
        ¬(f.tag = "input" ∧ f.typeAttr = some "hidden")) ∧
    extract_form_parameters [⟨"input", some "csrf_token", some "hidden"⟩] =
      (∅, {"csrf_token"}) ∧
    extract_form_parameters [⟨"input", some "tok", some "Hidden"⟩] =
      ({"tok"}, ∅) := by
  refine ⟨?_, ?_, by decide, by decide⟩
  · simp only [extract_form_parameters, List.mem_toFinset, List.mem_filterMap,
      hiddenNameOf_eq_some]
  · simp only [extract_form_parameters, List.mem_toFinset, List.mem_filterMap,
      visibleNameOf_eq_some]

/-- Claim C4 (confirmed): the printed "Total Unique Parameters Discovered"
equals the sum of the six per-bucket set sizes, not the cardinality of
their union; a string present in two different buckets contributes twice
(here `token`, present in the script bucket and the comment bucket, gives
total 2 while the union has only one element). -/
theorem total_is_sum_of_bucket_sizes (b : Buckets) :
    total_found b = b.query.card + b.path.card + b.formVisible.card +
      b.formHidden.card + b.js.card + b.comments.card ∧
    total_found ⟨∅, ∅, ∅, ∅, {"token"}, {"token"}⟩ = 2 ∧
    (allBucketUnion ⟨∅, ∅, ∅, ∅, {"token"}, {"token"}⟩).card = 1 := by
  refine ⟨total_found_eq_sum b, ?_, by decide⟩
  rw [total_found_eq_sum]
  decide

/-- Claim C6 (confirmed): every target URL whose query string is
`a=1&b=2&a=3` yields exactly the key set containing `a` and `b`: values are
discarded and duplicate keys collapse to one entry. -/
theorem query_keys_dup_collapsed (url : String)
    (h : urlQuery url = "a=1&b=2&a=3") :
    extract_url_query_parameters url = {"a", "b"} := by
  unfold extract_url_query_parameters
  rw [h]
  decide

/-- Witness for claim C6 at a concrete URL with that query string. -/
theorem query_keys_dup_collapsed_witness :
    urlQuery "http://example.com/search?a=1&b=2&a=3" = "a=1&b=2&a=3" ∧
      extract_url_query_parameters "http://example.com/search?a=1&b=2&a=3" =
        {"a", "b"} :=
  ⟨by decide, query_keys_dup_collapsed _ (by decide)⟩

/-- Claim C10 (confirmed): a query key with an empty value is not surfaced:
for a query string `a=&b=2`, the query pass yields a bucket that contains
`b` but not `a`, because `parse_qs` drops blank values by default. -/
theorem blank_value_key_dropped (url : String) (h : urlQuery url = "a=&b=2") :
    extract_url_query_parameters url = {"b"} ∧
      "a" ∉ extract_url_query_parameters url ∧
      "b" ∈ extract_url_query_parameters url := by
  unfold extract_url_query_parameters
  rw [h]
  exact ⟨by decide, by decide, by decide⟩

/-- Witness for claim C10 at a concrete URL with that query string. -/
theorem blank_value_key_dropped_witness :
    urlQuery "http://example.com/page?a=&b=2" = "a=&b=2" ∧
      extract_url_query_parameters "http://example.com/page?a=&b=2" = {"b"} :=
  ⟨by decide, (blank_value_key_dropped _ (by decide)).1⟩

/-- Claim C7 (confirmed): when the fetch fails, the run terminates with
exit code 1 and the bucket state is returned exactly as it was: no
extraction pass runs and no bucket is modified. -/
theorem fetch_failure_exits_without_extraction (url err : String) (b : Buckets) :
    find_all_parameters url (.failure err) b = (1, b) ∧
    (find_all_parameters url (.failure err) b).2 = b := by
  exact ⟨rfl, rfl⟩

/-- Claim C8 (confirmed): the pipeline is deterministic: two runs over the
same fetched document, the same target URL and the same initial bucket
state produce equal bucket states and identical sorted report lines and
total. -/
theorem pipeline_deterministic (url₁ url₂ : String) (doc₁ doc₂ : Document)
    (b₁ b₂ : Buckets) (hu : url₁ = url₂) (hd : doc₁ = doc₂) (hb : b₁ = b₂) :
    find_all_parameters url₁ (.success doc₁) b₁ =
      find_all_parameters url₂ (.success doc₂) b₂ ∧
    display_results (runPasses url₁ doc₁ b₁) =
      display_results (runPasses url₂ doc₂ b₂) := by
  subst hu; subst hd; subst hb
  exact ⟨rfl, rfl⟩

/-- Witness for claim C8 at a concrete URL, document and bucket state. -/
theorem pipeline_deterministic_witness :
    find_all_parameters "http://example.com" (.success ⟨[], [], [], [], []⟩) emptyBuckets =
      find_all_parameters "http://example.com" (.success ⟨[], [], [], [], []⟩) emptyBuckets ∧
    display_results (runPasses "http://example.com" ⟨[], [], [], [], []⟩ emptyBuckets) =
      display_results (runPasses "http://example.com" ⟨[], [], [], [], []⟩ emptyBuckets) :=
  pipeline_deterministic _ _ _ _ _ _ rfl rfl rfl

end Parambuster
